import Mathlib

/-!
Verification of the OSINTment Finding Categorization & Report Generation
pipeline (src/osintment/reports/data_analyzer.py and report_generator.py),
shallowly embedded in Lean 4.

Modelling conventions:
* A Python dict (raw finding, scan metadata) is a `Dict`: a string-keyed
  association list with first-match lookup; `Dict.get` is Python
  `d.get(k)`, `Dict.getD` is `d.get(k, default)`.
* All field values are embedded as strings, matching the repository data
  model (type, data, module, source, timestamp are strings).  The
  `confidence` value is carried opaquely by every operation in scope and
  never compared or inspected, so the source integer default `100` is
  embedded as its decimal string "100".
* Python `dict` preserves insertion order, so the categorized index is an
  association list built in first-seen key order.
* Python `sorted(...)` (lexicographic on strings, stable) is embedded as
  the stable insertion sort `sortLeBy`, built on the executable
  lexicographic comparator `strLe`, which is proved equivalent to
  Mathlib's linear order on `String` (`strLe_iff`).  `sorted(list(set(xs)))`
  becomes `sortLeBy id xs.dedup`: both are the sorted duplicate-free list
  of the same elements.
* The ambient clock (`datetime.now()`) is passed as an explicit `now`
  parameter, so that dependence on it is visible in the embedding.
* File writes are returned explicitly as a list of `(path, content)`
  pairs; a raised exception is an `Except.error` carrying the message.
-/

/-- A Python string-keyed dictionary, embedded as an association list with
first-match lookup. -/
structure Dict where
  entries : List (String × String)
deriving DecidableEq, Repr

/-- Python `d.get(k)`: the value stored at key `k`, if present. -/
def Dict.get (d : Dict) (k : String) : Option String :=
  (d.entries.find? (fun p => p.1 == k)).map Prod.snd

/-- Python `d.get(k, default)`: note the default is used only when the key
is absent; a present key with value `""` yields `""`. -/
def Dict.getD (d : Dict) (k : String) (default : String) : String :=
  (d.get k).getD default

/-- One simplified finding record stored in the categorized index
(`_categorize_results` builds one per raw finding). -/
structure CatItem where
  data : String
  module : String
  source : String
  confidence : String
  timestamp : String
deriving DecidableEq, Repr

/-- The simplified record `_categorize_results` files for a raw finding. -/
def mkCatItem (result : Dict) : CatItem :=
  { data := result.getD "data" ""
    module := result.getD "module" ""
    source := result.getD "source" ""
    confidence := result.getD "confidence" "100"
    timestamp := result.getD "timestamp" "" }

/-- Append `item` to the bucket of key `k` in an insertion-ordered
association map, creating the bucket at the end when `k` is new
(`defaultdict(list)` + `categories[data_type].append(...)`). -/
def insertCat (cats : List (String × List CatItem)) (k : String) (item : CatItem) :
    List (String × List CatItem) :=
  match cats with
  | [] => [(k, [item])]
  | (k₀, items) :: rest =>
    if k₀ = k then (k₀, items ++ [item]) :: rest
    else (k₀, items) :: insertCat rest k item

/-- ScanDataAnalyzer._categorize_results: group raw findings by
`result.get('type', 'Unknown')`, in first-seen key order, each bucket in
input order. -/
def categorize_results (scan_results : List Dict) : List (String × List CatItem) :=
  scan_results.foldl (fun cats r => insertCat cats (r.getD "type" "Unknown") (mkCatItem r)) []

/-- Python `data_type in categories` / `categories[data_type]`: lookup of a
bucket in the categorized index. -/
def lookupCat? (cats : List (String × List CatItem)) (k : String) : Option (List CatItem) :=
  match cats with
  | [] => none
  | (k₀, items) :: rest => if k₀ = k then some items else lookupCat? rest k

/-- The bucket of key `k`, or `[]` when `k` is absent. -/
def lookupCat (cats : List (String × List CatItem)) (k : String) : List CatItem :=
  (lookupCat? cats k).getD []

/-- Stable insertion into a descending-by-key list: the inserted element
passes strictly greater keys only, so among equal keys earlier input
elements stay first (Python stable `sorted(..., reverse=True)`). -/
def insertDescBy (key : α → Nat) (x : α) : List α → List α
  | [] => [x]
  | y :: ys => if key x < key y then y :: insertDescBy key x ys else x :: y :: ys

/-- Stable descending sort by a numeric key (Python
`sorted(..., key=..., reverse=True)` / `list.sort(..., reverse=True)`). -/
def sortDescBy (key : α → Nat) : List α → List α
  | [] => []
  | x :: xs => insertDescBy key x (sortDescBy key xs)

/-- Count one occurrence of `k`, keys kept in first-seen order
(`Counter` / `defaultdict(int)` over an insertion-ordered dict). -/
def bumpCount (acc : List (String × Nat)) (k : String) : List (String × Nat) :=
  match acc with
  | [] => [(k, 1)]
  | (k₀, n) :: rest => if k₀ = k then (k₀, n + 1) :: rest else (k₀, n) :: bumpCount rest k

/-- Occurrence counts of a list of strings, keys in first-seen order. -/
def countByFirstSeen (l : List String) : List (String × Nat) :=
  l.foldl bumpCount []

/-- Result record of ScanDataAnalyzer.get_executive_summary. -/
structure ExecutiveSummary where
  total_findings : Nat
  unique_data_types : Nat
  category_counts : List (String × Nat)
  top_categories : List (String × Nat)
  module_stats : List (String × Nat)
  scan_target : String
  scan_name : String
  scan_date : String
deriving DecidableEq, Repr

/-- ScanDataAnalyzer.get_executive_summary.  The `now` argument embeds
`datetime.now().isoformat()`, used only as the default of
`scan_info.get('created', ...)`. -/
def get_executive_summary (scan_results : List Dict) (scan_info : Dict) (now : String) :
    ExecutiveSummary :=
  let categorized := categorize_results scan_results
  let category_counts := categorized.map (fun p => (p.1, p.2.length))
  { total_findings := scan_results.length
    unique_data_types := categorized.length
    category_counts := category_counts
    top_categories := (sortDescBy Prod.snd category_counts).take 10
    module_stats :=
      (sortDescBy Prod.snd
        (countByFirstSeen (scan_results.map (fun r => r.getD "module" "Unknown")))).take 10
    scan_target := scan_info.getD "target" "Unknown"
    scan_name := scan_info.getD "name" "Unknown"
    scan_date := scan_info.getD "created" now }

/-- Total number of records filed in a categorized index. -/
def catSize (cats : List (String × List CatItem)) : Nat :=
  (cats.map (fun p => p.2.length)).sum

/-- Python string slicing `s[:n]`: the first `n` characters (code points)
of the string. -/
def strTake (s : String) (n : Nat) : String :=
  ⟨s.data.take n⟩

/-- Lexicographic comparison of character lists, as a computable Bool
(Python string `<=` restricted to the chars). -/
def charsLe : List Char → List Char → Bool
  | [], _ => true
  | _ :: _, [] => false
  | a :: as, b :: bs => if a < b then true else if b < a then false else charsLe as bs

/-- Executable lexicographic string comparison (Python `s1 <= s2`). -/
def strLe (a b : String) : Bool :=
  charsLe a.data b.data

/-- Stable insertion of `x` into a list sorted ascending by the string
key `f`: `x` passes strictly smaller keys and stops before the first key
that is `≥` its own, so equal keys keep input order. -/
def insertLeBy (f : α → String) (x : α) : List α → List α
  | [] => [x]
  | y :: ys => if strLe (f x) (f y) then x :: y :: ys else y :: insertLeBy f x ys

/-- Stable ascending insertion sort by a string key (Python
`sorted(...)` / `list.sort(...)` with a string key). -/
def sortLeBy (f : α → String) : List α → List α
  | [] => []
  | x :: xs => insertLeBy f x (sortLeBy f xs)

/-- Python `sorted(list(set(xs)))`: the alphabetically sorted list of the
distinct elements of `xs`. -/
def sortedDistinct (l : List String) : List String :=
  sortLeBy id l.dedup

/-- The fixed priority-ordered list of high-value type labels of
ScanDataAnalyzer.get_critical_findings. -/
def critical_types : List String :=
  ["EMAILADDR", "PHONE_NUMBER", "IP_ADDRESS", "NETBLOCK_OWNER",
   "AFFILIATE_INTERNET_NAME", "INTERNET_NAME", "WEBSERVER_TECHNOLOGY",
   "VULNERABILITY", "LEAKED_DATA", "DEFACED", "MALICIOUS_IPADDR",
   "MALICIOUS_INTERNET_NAME"]

/-- One entry of the critical-findings view. -/
structure CriticalFinding where
  type : String
  data : String
  module : String
  confidence : String
deriving DecidableEq, Repr

/-- ScanDataAnalyzer.get_critical_findings: for each critical type label in
order, at most the first 5 records of its bucket, tagged with the label. -/
def get_critical_findings (scan_results : List Dict) : List CriticalFinding :=
  let categorized := categorize_results scan_results
  critical_types.foldl
    (fun critical dt =>
      match lookupCat? categorized dt with
      | none => critical
      | some items =>
        critical ++ (items.take 5).map
          (fun it => { type := dt, data := it.data, module := it.module,
                       confidence := it.confidence }))
    []

/-- Result record of ScanDataAnalyzer.get_domain_intelligence. -/
structure DomainIntelligence where
  domains : List String
  subdomains : List String
  ip_addresses : List String
  total_domains : Nat
  total_subdomains : Nat
  total_ips : Nat
deriving DecidableEq, Repr

/-- The data values of the findings whose type (defaulted to `""` as in
get_domain_intelligence) equals `t`. -/
def dataOfType (scan_results : List Dict) (t : String) : List String :=
  (scan_results.filter (fun r => r.getD "type" "" == t)).map (fun r => r.getD "data" "")

/-- ScanDataAnalyzer.get_domain_intelligence: distinct sorted domains,
subdomains and IP addresses with their counts (Python sets rendered as
sorted lists). -/
def get_domain_intelligence (scan_results : List Dict) : DomainIntelligence :=
  let domains := sortedDistinct (dataOfType scan_results "INTERNET_NAME")
  let subdomains := sortedDistinct (dataOfType scan_results "AFFILIATE_INTERNET_NAME")
  let ip_addresses := sortedDistinct (dataOfType scan_results "IP_ADDRESS")
  { domains := domains
    subdomains := subdomains
    ip_addresses := ip_addresses
    total_domains := domains.length
    total_subdomains := subdomains.length
    total_ips := ip_addresses.length }

/-- The fixed raw-type to human-readable-label table of
ScanDataAnalyzer.get_technology_stack, in its dict iteration order. -/
def tech_types : List (String × String) :=
  [("WEBSERVER_TECHNOLOGY", "Web Servers"),
   ("WEBSERVER_BANNER", "Server Banners"),
   ("SOFTWARE_USED", "Software"),
   ("OPERATING_SYSTEM", "Operating Systems")]

/-- ScanDataAnalyzer.get_technology_stack: the loop touches a label only
when its raw type has a bucket, so the returned mapping holds, in table
order, exactly the labels whose raw type occurs, each with the sorted
distinct data values of that bucket. -/
def get_technology_stack (scan_results : List Dict) : List (String × List String) :=
  let categorized := categorize_results scan_results
  (tech_types.filter (fun p => (lookupCat? categorized p.1).isSome)).map
    (fun p => (p.2, sortedDistinct ((lookupCat categorized p.1).map (fun it => it.data))))

/-- Result record of ScanDataAnalyzer.get_network_intelligence. -/
structure NetworkIntelligence where
  ip_addresses : List String
  netblocks : List String
  asn_info : List String
  bgp_info : List String
deriving DecidableEq, Repr

/-- ScanDataAnalyzer.get_network_intelligence: 4 fixed buckets populated
from 4 raw type labels, in bucket order, not deduplicated; `[]` when the
raw type is absent. -/
def get_network_intelligence (scan_results : List Dict) : NetworkIntelligence :=
  let categorized := categorize_results scan_results
  { ip_addresses := (lookupCat categorized "IP_ADDRESS").map (fun it => it.data)
    netblocks := (lookupCat categorized "NETBLOCK_OWNER").map (fun it => it.data)
    asn_info := (lookupCat categorized "BGP_AS_OWNER").map (fun it => it.data)
    bgp_info := (lookupCat categorized "BGP_AS_MEMBER").map (fun it => it.data) }

/-- Result record of ScanDataAnalyzer.get_contact_information. -/
structure ContactInformation where
  emails : List String
  phone_numbers : List String
  physical_addresses : List String
  social_profiles : List String
deriving DecidableEq, Repr

/-- ScanDataAnalyzer.get_contact_information: 4 fixed buckets, each
`list(set(...))` of the data values of one raw type label.  The Python
set iteration order is unspecified (downstream must not rely on it); the
set is embedded as `List.dedup`, which has the same membership and
duplicate-freeness. -/
def get_contact_information (scan_results : List Dict) : ContactInformation :=
  let categorized := categorize_results scan_results
  { emails := ((lookupCat categorized "EMAILADDR").map (fun it => it.data)).dedup
    phone_numbers := ((lookupCat categorized "PHONE_NUMBER").map (fun it => it.data)).dedup
    physical_addresses :=
      ((lookupCat categorized "PHYSICAL_ADDRESS").map (fun it => it.data)).dedup
    social_profiles := ((lookupCat categorized "SOCIAL_MEDIA").map (fun it => it.data)).dedup }

/-- One entry of the security-findings view, tagged with its raw type. -/
structure SecurityFinding where
  type : String
  data : String
  module : String
  source : String
deriving DecidableEq, Repr

/-- The bucket of raw type `t`, tagged entry-wise with `t`. -/
def taggedFindings (categorized : List (String × List CatItem)) (t : String) :
    List SecurityFinding :=
  (lookupCat categorized t).map
    (fun it => { type := t, data := it.data, module := it.module, source := it.source })

/-- Result record of ScanDataAnalyzer.get_security_findings. -/
structure SecurityFindings where
  vulnerabilities : List SecurityFinding
  malicious_indicators : List SecurityFinding
  leaked_data : List SecurityFinding
  ssl_issues : List SecurityFinding
deriving DecidableEq, Repr

/-- ScanDataAnalyzer.get_security_findings: 4 fixed buckets; the loop over
the security_types table appends MALICIOUS_IPADDR before
MALICIOUS_INTERNET_NAME into malicious_indicators, and the certificate
mismatch bucket before the expired one into ssl_issues. -/
def get_security_findings (scan_results : List Dict) : SecurityFindings :=
  let categorized := categorize_results scan_results
  { vulnerabilities := taggedFindings categorized "VULNERABILITY"
    malicious_indicators :=
      taggedFindings categorized "MALICIOUS_IPADDR"
        ++ taggedFindings categorized "MALICIOUS_INTERNET_NAME"
    leaked_data := taggedFindings categorized "LEAKED_DATA"
    ssl_issues :=
      taggedFindings categorized "SSL_CERTIFICATE_MISMATCH"
        ++ taggedFindings categorized "SSL_CERTIFICATE_EXPIRED" }

/-- One entry of the timeline view. -/
structure TimelineEntry where
  timestamp : String
  type : String
  data : String
  module : String
deriving DecidableEq, Repr

/-- Ordering of timeline entries: lexicographic on the raw timestamp
string (Python `timeline.sort(key=lambda x: x['timestamp'])`). -/
def tsLE (a b : TimelineEntry) : Prop :=
  a.timestamp ≤ b.timestamp

/-- Python truthiness of `result.get('timestamp')`: the key is present
with a non-empty value. -/
def hasTimestamp (r : Dict) : Bool :=
  !(r.getD "timestamp" "" == "")

/-- The timeline projection of one raw finding: timestamp, type
(defaulted to "Unknown"), data truncated to 100 characters, module. -/
def mkTimelineEntry (r : Dict) : TimelineEntry :=
  { timestamp := r.getD "timestamp" ""
    type := r.getD "type" "Unknown"
    data := strTake (r.getD "data" "") 100
    module := r.getD "module" "" }

/-- ScanDataAnalyzer.get_timeline_data: project every finding with a
truthy timestamp, then stable-sort ascending by timestamp string. -/
def get_timeline_data (scan_results : List Dict) : List TimelineEntry :=
  sortLeBy (fun e => e.timestamp) ((scan_results.filter hasTimestamp).map mkTimelineEntry)

/-- One entry of the module-efficiency view. -/
structure ModuleEfficiency where
  module : String
  findings : Nat
deriving DecidableEq, Repr

/-- ScanDataAnalyzer.get_module_efficiency: findings per module (modules
in first-seen order), stable-sorted descending by count. -/
def get_module_efficiency (scan_results : List Dict) : List ModuleEfficiency :=
  sortDescBy (fun e => e.findings)
    ((countByFirstSeen (scan_results.map (fun r => r.getD "module" "Unknown"))).map
      (fun p => { module := p.1, findings := p.2 }))

/-- Result record of ScanDataAnalyzer.generate_full_analysis: the
CategorizedIndex plus all nine derived views. -/
structure AnalysisBundle where
  executive_summary : ExecutiveSummary
  critical_findings : List CriticalFinding
  domain_intelligence : DomainIntelligence
  technology_stack : List (String × List String)
  network_intelligence : NetworkIntelligence
  contact_information : ContactInformation
  security_findings : SecurityFindings
  timeline : List TimelineEntry
  module_efficiency : List ModuleEfficiency
  categorized_data : List (String × List CatItem)
deriving DecidableEq, Repr

/-- ScanDataAnalyzer.generate_full_analysis.  The `now` argument embeds
the ambient clock, consumed only by get_executive_summary. -/
def generate_full_analysis (scan_results : List Dict) (scan_info : Dict) (now : String) :
    AnalysisBundle :=
  { executive_summary := get_executive_summary scan_results scan_info now
    critical_findings := get_critical_findings scan_results
    domain_intelligence := get_domain_intelligence scan_results
    technology_stack := get_technology_stack scan_results
    network_intelligence := get_network_intelligence scan_results
    contact_information := get_contact_information scan_results
    security_findings := get_security_findings scan_results
    timeline := get_timeline_data scan_results
    module_efficiency := get_module_efficiency scan_results
    categorized_data := categorize_results scan_results }

/-- An output file path: a filename stem plus an extension
(`pathlib.Path.with_suffix` replaces the extension). -/
structure OutPath where
  stem : String
  ext : String
deriving DecidableEq, Repr

/-- Python `path.with_suffix(newExt)`. -/
def OutPath.withSuffix (p : OutPath) (newExt : String) : OutPath :=
  { stem := p.stem, ext := newExt }

/-- The textual form of the path as it appears in messages. -/
def OutPath.render (p : OutPath) : String :=
  p.stem ++ p.ext

/-- Whether `pat` occurs as a contiguous substring of `s`. -/
def containsSubstr (s pat : String) : Bool :=
  (List.range (s.length + 1)).any (fun i => (s.data.drop i).take pat.data.length == pat.data)

/-- Whether an `Except` result is a raised error. -/
def isError : Except String Unit → Bool
  | .error _ => true
  | .ok _ => false

/-- The message of a raised error (or `""` for a normal return). -/
def errorMessage : Except String Unit → String
  | .error e => e
  | .ok _ => ""

/-- ReportGenerator._generate_pdf.  The HTML-to-PDF converter (WeasyPrint)
is an external collaborator, abstracted as `convert`; `Except.error e`
embeds an exception with message `e` raised during conversion.  On
success the PDF is written to `output_path`; on failure the HTML content
is written to the same stem with the `.html` extension and a RuntimeError
naming that fallback path is raised. -/
def generate_pdf (convert : String → Except String String) (html_content : String)
    (output_path : OutPath) : Except String Unit × List (OutPath × String) :=
  match convert html_content with
  | .ok pdf_bytes => (.ok (), [(output_path, pdf_bytes)])
  | .error e =>
    let html_path := output_path.withSuffix ".html"
    (.error ("PDF generation failed: " ++ e ++ ". HTML report saved to: " ++ html_path.render),
     [(html_path, html_content)])

/-- ReportGenerator.generate_report.  The Jinja2 template rendering of the
prepared context is an external collaborator, abstracted as `renderHtml`;
`now` embeds `datetime.now().isoformat()` inside the analysis and
`nowStamp` the `datetime.now().strftime` filename timestamp.  Returns the
raised-or-returned outcome and the list of files written. -/
def generate_report (renderHtml : AnalysisBundle → String)
    (convert : String → Except String String) (scan_results : List Dict)
    (scan_info : Dict) (now nowStamp : String) (output_format : String)
    (output_filename : Option String) : Except String OutPath × List (OutPath × String) :=
  let analysis := generate_full_analysis scan_results scan_info now
  let html_content := renderHtml analysis
  let filename :=
    match output_filename with
    | some f => f
    | none =>
      "osint_report_"
        ++ ((scan_info.getD "target" "unknown").replace ":" "_").replace "/" "_"
        ++ "_" ++ nowStamp
  let output_path : OutPath := { stem := filename, ext := "." ++ output_format }
  if output_format = "html" then
    (.ok output_path, [(output_path, html_content)])
  else if output_format = "pdf" then
    match generate_pdf convert html_content output_path with
    | (.ok _, writes) => (.ok output_path, writes)
    | (.error e, writes) => (.error e, writes)
  else
    (.error ("Unsupported output format: " ++ output_format), [])

/-- ReportGenerator.generate_json_export: always writes the serialized
full analysis to the given path (the JSON encoding itself is external
collaborator territory; the written value is the analysis bundle). -/
def generate_json_export (scan_results : List Dict) (scan_info : Dict) (now : String)
    (output_path : OutPath) : List (OutPath × AnalysisBundle) :=
  [(output_path, generate_full_analysis scan_results scan_info now)]

/-- ReportGenerator.generate_csv_export, header enumeration: the
alphabetically sorted distinct keys occurring across all raw finding
records (`keys = set(); keys.update(result.keys()); sorted(list(keys))`). -/
def csv_keys (scan_results : List Dict) : List String :=
  sortLeBy id (scan_results.foldl (fun acc r => acc ++ r.entries.map Prod.fst) []).dedup

/-- ReportGenerator.generate_csv_export: `none` embeds the early return
with no file written on an empty finding list; otherwise the written cell
grid is the header row followed by one row per record, a missing key
rendering as the empty cell (csv.DictWriter with `restval` defaulting to
the empty string). -/
def generate_csv_export (scan_results : List Dict) : Option (List (List String)) :=
  if scan_results = [] then none
  else
    let keys := csv_keys scan_results
    some (keys :: scan_results.map (fun r => keys.map (fun k => r.getD k "")))

/-- ReportGenerator.generate_executive_summary, percentage loop: the
(numerator, divisor) pairs on which the text generator evaluates
`count / total_findings * 100`, one per rendered top-category line
(`for category, count in summary['top_categories'][:5]`). -/
def executive_summary_percent_inputs (scan_results : List Dict) (scan_info : Dict)
    (now : String) : List (Nat × Nat) :=
  let summary := get_executive_summary scan_results scan_info now
  (summary.top_categories.take 5).map (fun p => (p.2, summary.total_findings))

lemma catSize_insertCat (cats : List (String × List CatItem)) (k : String) (item : CatItem) :
    catSize (insertCat cats k item) = catSize cats + 1 := by
  induction cats with
  | nil => simp [insertCat, catSize]
  | cons hd tl ih =>
    obtain ⟨k₀, items⟩ := hd
    by_cases h : k₀ = k
    · simp [insertCat, h, catSize]
      omega
    · simp [insertCat, h, catSize] at ih ⊢
      omega

lemma catSize_categorize_aux (l : List Dict) :
    ∀ acc : List (String × List CatItem),
      catSize (l.foldl (fun cats r => insertCat cats (r.getD "type" "Unknown") (mkCatItem r)) acc)
        = catSize acc + l.length := by
  induction l with
  | nil => intro acc; simp
  | cons r rest ih =>
    intro acc
    simp only [List.foldl_cons, List.length_cons]
    rw [ih, catSize_insertCat]
    omega

lemma lookupCat?_insertCat (cats : List (String × List CatItem)) (k k₁ : String)
    (item : CatItem) :
    lookupCat? (insertCat cats k item) k₁
      = if k₁ = k then some (lookupCat cats k ++ [item]) else lookupCat? cats k₁ := by
  induction cats with
  | nil =>
    by_cases h : k₁ = k
    · subst h; simp [insertCat, lookupCat?, lookupCat]
    · have h1 : ¬ k = k₁ := fun e => h e.symm
      simp [insertCat, lookupCat?, lookupCat, h, h1]
  | cons hd tl ih =>
    obtain ⟨k₀, items⟩ := hd
    by_cases h0 : k₀ = k
    · subst h0
      by_cases h1 : k₁ = k₀
      · subst h1; simp [insertCat, lookupCat?, lookupCat]
      · have h2 : ¬ k₀ = k₁ := fun e => h1 e.symm
        simp [insertCat, lookupCat?, lookupCat, h1, h2]
    · rw [show insertCat ((k₀, items) :: tl) k item
            = (k₀, items) :: insertCat tl k item by simp [insertCat, h0]]
      by_cases h1 : k₀ = k₁
      · have h2 : ¬ k₁ = k := fun e => h0 (h1.trans e)
        simp [lookupCat?, h1, h2]
      · by_cases h2 : k₁ = k
        · subst h2
          simp [lookupCat?, lookupCat, h0, h1, ih]
        · simp [lookupCat?, h1, h2, ih]

lemma lookupCat_insertCat (cats : List (String × List CatItem)) (k k₁ : String)
    (item : CatItem) :
    lookupCat (insertCat cats k item) k₁
      = if k₁ = k then lookupCat cats k₁ ++ [item] else lookupCat cats k₁ := by
  by_cases h : k₁ = k <;> simp [lookupCat, lookupCat?_insertCat, h]

lemma lookupCat_categorize_aux (l : List Dict) :
    ∀ (acc : List (String × List CatItem)) (k : String),
      lookupCat (l.foldl (fun cats r => insertCat cats (r.getD "type" "Unknown") (mkCatItem r)) acc) k
        = lookupCat acc k
            ++ (l.filter (fun r => r.getD "type" "Unknown" == k)).map mkCatItem := by
  induction l with
  | nil => intro acc k; simp
  | cons r rest ih =>
    intro acc k
    simp only [List.foldl_cons, List.filter_cons]
    by_cases h : r.getD "type" "Unknown" = k
    · rw [ih]
      simp [lookupCat_insertCat, h]
    · rw [ih]
      have hb : (r.getD "type" "Unknown" == k) = false := by
        simp [h]
      have hk : ¬ k = r.getD "type" "Unknown" := fun e => h e.symm
      rw [lookupCat_insertCat]
      simp [hb, hk]

lemma isSome_lookupCat?_categorize_aux (l : List Dict) :
    ∀ (acc : List (String × List CatItem)) (k : String),
      (lookupCat? (l.foldl (fun cats r => insertCat cats (r.getD "type" "Unknown") (mkCatItem r)) acc) k).isSome
        = ((lookupCat? acc k).isSome || l.any (fun r => r.getD "type" "Unknown" == k)) := by
  induction l with
  | nil => intro acc k; simp
  | cons r rest ih =>
    intro acc k
    simp only [List.foldl_cons, List.any_cons]
    rw [ih]
    by_cases h : k = r.getD "type" "Unknown"
    · simp [lookupCat?_insertCat, h]
    · have hk : ¬ r.getD "type" "Unknown" = k := fun e => h e.symm
      have hb : (r.getD "type" "Unknown" == k) = false := by simp [hk]
      simp [lookupCat?_insertCat, h, hb]

/-- The full characterization of the categorized index by raw findings:
the bucket at a label is the projection of exactly the findings whose
(defaulted) type is that label. -/
lemma lookupCat_categorize (scan_results : List Dict) (k : String) :
    lookupCat (categorize_results scan_results) k
      = (scan_results.filter (fun r => r.getD "type" "Unknown" == k)).map mkCatItem := by
  have h := lookupCat_categorize_aux scan_results [] k
  simpa [categorize_results, lookupCat, lookupCat?] using h

/-- A label is present in the categorized index exactly when some finding
carries it as its (defaulted) type. -/
lemma isSome_lookupCat?_categorize (scan_results : List Dict) (k : String) :
    (lookupCat? (categorize_results scan_results) k).isSome
      = scan_results.any (fun r => r.getD "type" "Unknown" == k) := by
  have h := isSome_lookupCat?_categorize_aux scan_results [] k
  simpa [categorize_results, lookupCat?] using h

lemma charsLe_eq_true_iff : ∀ as bs : List Char, charsLe as bs = true ↔ ¬ List.lt bs as := by
  intro as
  induction as with
  | nil =>
    intro bs
    simp only [charsLe]
    constructor
    · intro _ h
      cases h
    · intro _
      trivial
  | cons a as1 ih =>
    intro bs
    cases bs with
    | nil =>
      simp only [charsLe]
      constructor
      · intro h
        cases h
      · intro h
        exact absurd (List.lt.nil a as1) h
    | cons b bs1 =>
      simp only [charsLe]
      by_cases hab : a < b
      · rw [if_pos hab]
        apply iff_of_true rfl
        intro h
        cases h with
        | head _ _ hba => exact absurd hab (lt_asymm hba)
        | tail h1 h2 _ => exact h2 hab
      · by_cases hba : b < a
        · rw [if_neg hab, if_pos hba]
          apply iff_of_false
          · simp
          · exact not_not_intro (List.lt.head _ _ hba)
        · rw [if_neg hab, if_neg hba, ih bs1]
          constructor
          · intro h hlt
            cases hlt with
            | head _ _ h2 => exact hba h2
            | tail _ _ h3 => exact h h3
          · intro h hlt
            exact h (List.lt.tail hba hab hlt)

/-- The executable comparator agrees with Mathlib's linear order on
strings, so `sortLeBy` sorts by the standard lexicographic order. -/
lemma strLe_iff (a b : String) : strLe a b = true ↔ a ≤ b := by
  have h1 : strLe a b = true ↔ ¬ List.lt b.data a.data := charsLe_eq_true_iff a.data b.data
  rw [List.lt_iff_lex_lt] at h1
  rw [String.le_iff_toList_le, ← not_lt]
  exact h1

lemma strLe_false (a b : String) (h : strLe a b = false) : b ≤ a := by
  have h2 : ¬ strLe a b = true := by simp [h]
  exact le_of_not_le (fun hle => h2 ((strLe_iff a b).mpr hle))

lemma perm_insertLeBy (f : α → String) (x : α) (l : List α) :
    List.Perm (insertLeBy f x l) (x :: l) := by
  induction l with
  | nil => exact List.Perm.refl _
  | cons y ys ih =>
    cases h : strLe (f x) (f y) with
    | true =>
      simp only [insertLeBy, h, if_true]
      exact List.Perm.refl _
    | false =>
      simp only [insertLeBy, h, Bool.false_eq_true, if_false]
      exact (ih.cons y).trans (List.Perm.swap x y ys)

lemma perm_sortLeBy (f : α → String) (l : List α) : List.Perm (sortLeBy f l) l := by
  induction l with
  | nil => exact List.Perm.refl _
  | cons x xs ih =>
    exact (perm_insertLeBy f x (sortLeBy f xs)).trans (ih.cons x)

lemma sorted_insertLeBy (f : α → String) (x : α) (l : List α)
    (hl : l.Sorted (fun a b => f a ≤ f b)) :
    (insertLeBy f x l).Sorted (fun a b => f a ≤ f b) := by
  induction l with
  | nil => simp [insertLeBy]
  | cons y ys ih =>
    rw [List.sorted_cons] at hl
    obtain ⟨hy, hys⟩ := hl
    cases h : strLe (f x) (f y) with
    | true =>
      simp only [insertLeBy, h, if_true]
      rw [List.sorted_cons]
      refine ⟨?_, ?_⟩
      · intro b hb
        rcases List.mem_cons.mp hb with hb | hb
        · subst hb
          exact (strLe_iff _ _).mp h
        · exact le_trans ((strLe_iff _ _).mp h) (hy b hb)
      · rw [List.sorted_cons]
        exact ⟨hy, hys⟩
    | false =>
      simp only [insertLeBy, h, Bool.false_eq_true, if_false]
      rw [List.sorted_cons]
      refine ⟨?_, ih hys⟩
      intro b hb
      rcases List.mem_cons.mp ((perm_insertLeBy f x ys).mem_iff.mp hb) with hb | hb
      · subst hb
        exact strLe_false _ _ h
      · exact hy b hb

lemma sorted_sortLeBy (f : α → String) (l : List α) :
    (sortLeBy f l).Sorted (fun a b => f a ≤ f b) := by
  induction l with
  | nil => simp [sortLeBy]
  | cons x xs ih =>
    exact sorted_insertLeBy f x (sortLeBy f xs) ih

lemma length_strTake (s : String) (n : Nat) : (strTake s n).length ≤ n := by
  show (s.data.take n).length ≤ n
  simp [List.length_take]

/-- C1: for every finding list and scan metadata, the per-type counts in
the executive summary partition the input: the sum of category_counts
values over all type labels equals total_findings, which equals the
length of the input finding list. -/
theorem categorize_partition (scan_results : List Dict) (scan_info : Dict) (now : String) :
    (((get_executive_summary scan_results scan_info now).category_counts).map Prod.snd).sum
        = (get_executive_summary scan_results scan_info now).total_findings
      ∧ (get_executive_summary scan_results scan_info now).total_findings
        = scan_results.length := by
  constructor
  · show (((categorize_results scan_results).map (fun p => (p.1, p.2.length))).map Prod.snd).sum
        = scan_results.length
    rw [List.map_map]
    have h := catSize_categorize_aux scan_results []
    simp only [catSize, categorize_results] at h ⊢
    simpa [Function.comp] using h
  · rfl

/-- C2 (amended): categorization groups by the finding's type field
verbatim with no normalization, where a finding whose type field is
absent is grouped under the label "Unknown"; a finding whose type field
is present but equal to the empty string is filed under the empty-string
label, not under "Unknown".  The bucket of every label consists of
exactly the projections of the findings whose (absent-defaulted) type is
that label, and a label has a bucket exactly when some finding carries
it. -/
theorem categorize_by_type_verbatim (scan_results : List Dict) (k : String) :
    lookupCat (categorize_results scan_results) k
        = (scan_results.filter (fun r => r.getD "type" "Unknown" == k)).map mkCatItem
      ∧ (lookupCat? (categorize_results scan_results) k).isSome
        = scan_results.any (fun r => r.getD "type" "Unknown" == k) :=
  ⟨lookupCat_categorize scan_results k, isSome_lookupCat?_categorize scan_results k⟩

/-- C2 counterexample: a finding whose type field is present and equal to
the empty string is filed under the label "" and not under "Unknown",
refuting the claim that an empty type maps to "Unknown". -/
theorem categorize_empty_type_counterexample :
    (categorize_results [Dict.mk [("type", "")]]).map Prod.fst = [""]
      ∧ lookupCat? (categorize_results [Dict.mk [("type", "")]]) "Unknown" = none
      ∧ ("" : String) ≠ "Unknown" :=
  ⟨rfl, rfl, by decide⟩

/-- C3: the timeline view holds exactly one entry per input finding with
a non-empty timestamp (each entry projecting timestamp, type, data
truncated to at most 100 characters, and module), the sequence is
non-decreasing under lexicographic comparison of the raw timestamp
strings, its length is the count of findings with non-empty timestamp,
and every entry's data has at most 100 characters. -/
theorem timeline_spec (scan_results : List Dict) :
    List.Perm (get_timeline_data scan_results)
        ((scan_results.filter hasTimestamp).map mkTimelineEntry)
      ∧ (get_timeline_data scan_results).Sorted tsLE
      ∧ (get_timeline_data scan_results).length
        = (scan_results.filter hasTimestamp).length
      ∧ (get_timeline_data scan_results).all
          (fun e => decide (e.data.length ≤ 100)) = true := by
  refine ⟨perm_sortLeBy _ _, sorted_sortLeBy _ _, ?_, ?_⟩
  · rw [get_timeline_data, (perm_sortLeBy _ _).length_eq, List.length_map]
  · rw [List.all_eq_true]
    intro e he
    have hm : e ∈ (scan_results.filter hasTimestamp).map mkTimelineEntry :=
      (perm_sortLeBy _ _).mem_iff.mp he
    obtain ⟨r, _, rfl⟩ := List.mem_map.mp hm
    simpa [mkTimelineEntry] using length_strTake (r.getD "data" "") 100

/-- C4: the executive-summary text generator never divides by zero: when
total_findings is 0 the percentage computation is skipped entirely (the
list of performed divisions is empty) rather than evaluated or raising
an error. -/
theorem exec_summary_skips_percentages (scan_results : List Dict) (scan_info : Dict)
    (now : String)
    (h : (get_executive_summary scan_results scan_info now).total_findings = 0) :
    executive_summary_percent_inputs scan_results scan_info now = [] := by
  have hlen : scan_results.length = 0 := h
  have hnil : scan_results = [] := List.eq_nil_of_length_eq_zero hlen
  subst hnil
  rfl

/-- C4 witness: on the empty finding list total_findings is 0 and no
percentage division is performed. -/
theorem exec_summary_skips_percentages_witness :
    (get_executive_summary [] (Dict.mk []) "now").total_findings = 0
      ∧ executive_summary_percent_inputs [] (Dict.mk []) "now" = [] :=
  ⟨rfl, exec_summary_skips_percentages [] (Dict.mk []) "now" rfl⟩

lemma containsSubstr_append (pre pat : String) :
    containsSubstr (pre ++ pat) pat = true := by
  rw [containsSubstr, List.any_eq_true]
  refine ⟨pre.length, ?_, ?_⟩
  · rw [List.mem_range]
    have hl : (pre ++ pat).length = pre.length + pat.length := String.length_append pre pat
    omega
  · have hd : (pre ++ pat).data = pre.data ++ pat.data := String.data_append pre pat
    have hp : pre.length = pre.data.length := rfl
    rw [hd, hp, List.drop_left, List.take_length]
    simp

/-- C5: on PDF conversion failure, the renderer writes the already
rendered HTML content to the same filename stem with a .html extension,
and raises an error whose message contains that fallback path: after the
call the fallback HTML file is among the written files and the call
itself has raised. -/
theorem pdf_failure_fallback (convert : String → Except String String)
    (html_content : String) (output_path : OutPath) (e : String)
    (h : convert html_content = .error e) :
    isError (generate_pdf convert html_content output_path).1 = true
      ∧ (output_path.withSuffix ".html", html_content)
          ∈ (generate_pdf convert html_content output_path).2
      ∧ containsSubstr (errorMessage (generate_pdf convert html_content output_path).1)
          ((output_path.withSuffix ".html").render) = true := by
  simp only [generate_pdf, h, isError, errorMessage]
  refine ⟨trivial, List.mem_singleton.mpr rfl, ?_⟩
  exact containsSubstr_append ("PDF generation failed: " ++ e ++ ". HTML report saved to: ")
    ((output_path.withSuffix ".html").render)

/-- C5 witness: a converter that raises with message "boom" on the
rendered HTML makes the renderer write report.html with that HTML and
raise an error naming report.html. -/
theorem pdf_failure_fallback_witness :
    (fun _ : String => (Except.error "boom" : Except String String)) "the html"
        = Except.error "boom"
      ∧ (isError (generate_pdf (fun _ => Except.error "boom") "the html"
            (OutPath.mk "report" ".pdf")).1 = true
          ∧ ((OutPath.mk "report" ".pdf").withSuffix ".html", "the html")
              ∈ (generate_pdf (fun _ => Except.error "boom") "the html"
                  (OutPath.mk "report" ".pdf")).2
          ∧ containsSubstr
              (errorMessage (generate_pdf (fun _ => Except.error "boom") "the html"
                  (OutPath.mk "report" ".pdf")).1)
              (((OutPath.mk "report" ".pdf").withSuffix ".html").render) = true) :=
  ⟨rfl, pdf_failure_fallback (fun _ => Except.error "boom") "the html"
    (OutPath.mk "report" ".pdf") "boom" rfl⟩

/-- C7 counterexample: the full analysis is not a pure function of
finding list and scan metadata alone: when the scan metadata lacks the
created field, the executive summary's scan_date is taken from the
ambient clock, so two runs at different clock readings on equal inputs
produce different AnalysisBundles. -/
theorem analysis_depends_on_clock :
    generate_full_analysis [] (Dict.mk []) "2024-01-01T00:00:00"
      ≠ generate_full_analysis [] (Dict.mk []) "2025-01-01T00:00:00" := by
  decide

/-- C7 (amended): the full analysis is a pure function of the finding
list and scan metadata whenever the scan metadata carries the created
field: the clock reading then has no effect on any part of the
AnalysisBundle, the executive summary's scan_date included. -/
theorem analysis_pure_given_created (scan_results : List Dict) (scan_info : Dict)
    (now₁ now₂ : String) (h : scan_info.get "created" ≠ none) :
    generate_full_analysis scan_results scan_info now₁
      = generate_full_analysis scan_results scan_info now₂ := by
  have hd : scan_info.getD "created" now₁ = scan_info.getD "created" now₂ := by
    unfold Dict.getD
    cases e : scan_info.get "created" with
    | none => exact absurd e h
    | some v => rfl
  simp only [generate_full_analysis, get_executive_summary, hd]

/-- C7 witness: with a created field present, two runs at different
clock readings agree. -/
theorem analysis_pure_given_created_witness :
    (Dict.mk [("created", "2020-05-05")]).get "created" ≠ none
      ∧ generate_full_analysis [] (Dict.mk [("created", "2020-05-05")]) "a"
          = generate_full_analysis [] (Dict.mk [("created", "2020-05-05")]) "b" :=
  ⟨by decide,
   analysis_pure_given_created [] (Dict.mk [("created", "2020-05-05")]) "a" "b" (by decide)⟩

/-- C8 counterexample: on the empty finding list the TechnologyStack
mapping is empty, so its key set is not the 4 fixed labels, refuting the
claim that the keys are always Web Servers, Server Banners, Software and
Operating Systems. -/
theorem technology_stack_counterexample :
    get_technology_stack [] = []
      ∧ (get_technology_stack []).map Prod.fst
          ≠ ["Web Servers", "Server Banners", "Software", "Operating Systems"] :=
  ⟨rfl, by decide⟩

/-- C8 (amended): the TechnologyStack view holds, in fixed table order,
exactly those of the 4 labels whose corresponding raw type label occurs
among the findings, each mapped to the alphabetically sorted distinct
data values of the findings of that raw type; every value list is sorted
and duplicate-free. -/
theorem technology_stack_spec (scan_results : List Dict) :
    get_technology_stack scan_results
        = (tech_types.filter
            (fun p => scan_results.any (fun r => r.getD "type" "Unknown" == p.1))).map
            (fun p => (p.2, sortedDistinct
              ((scan_results.filter (fun r => r.getD "type" "Unknown" == p.1)).map
                (fun r => r.getD "data" ""))))
      ∧ (get_technology_stack scan_results).all
          (fun q => decide (q.2.Sorted (fun a b => a ≤ b)) && decide q.2.Nodup) = true := by
  constructor
  · simp only [get_technology_stack]
    have hfilter :
        tech_types.filter (fun p => (lookupCat? (categorize_results scan_results) p.1).isSome)
          = tech_types.filter
              (fun p => scan_results.any (fun r => r.getD "type" "Unknown" == p.1)) :=
      List.filter_congr (fun p _ => isSome_lookupCat?_categorize scan_results p.1)
    rw [hfilter]
    have hfun : (fun p : String × String =>
          (p.2, sortedDistinct
            ((lookupCat (categorize_results scan_results) p.1).map (fun it => it.data))))
        = (fun p : String × String =>
          (p.2, sortedDistinct
            ((scan_results.filter (fun r => r.getD "type" "Unknown" == p.1)).map
              (fun r => r.getD "data" "")))) := by
      funext p
      rw [lookupCat_categorize, List.map_map]
      rfl
    rw [hfun]
  · rw [List.all_eq_true]
    intro q hq
    simp only [get_technology_stack] at hq
    obtain ⟨p, _, rfl⟩ := List.mem_map.mp hq
    simp only [Bool.and_eq_true, decide_eq_true_eq]
    constructor
    · exact sorted_sortLeBy id _
    · exact (perm_sortLeBy id _).nodup_iff.mpr (List.nodup_dedup _)

/-- C9: requesting report generation with an output format outside
{html, pdf, json, csv} raises the unsupported-format error and writes no
file: no partial artifact exists after the call. -/
theorem report_unsupported_format (renderHtml : AnalysisBundle → String)
    (convert : String → Except String String) (scan_results : List Dict) (scan_info : Dict)
    (now nowStamp output_format : String) (output_filename : Option String)
    (h : output_format ∉ (["html", "pdf", "json", "csv"] : List String)) :
    (generate_report renderHtml convert scan_results scan_info now nowStamp output_format
          output_filename).1
        = Except.error ("Unsupported output format: " ++ output_format)
      ∧ (generate_report renderHtml convert scan_results scan_info now nowStamp output_format
          output_filename).2 = [] := by
  have h1 : ¬ output_format = "html" := fun e => h (by simp [e])
  have h2 : ¬ output_format = "pdf" := fun e => h (by simp [e])
  constructor <;> simp [generate_report, h1, h2]

/-- C9 witness: requesting the xml format raises the unsupported-format
error and writes nothing. -/
theorem report_unsupported_format_witness :
    ("xml" : String) ∉ (["html", "pdf", "json", "csv"] : List String)
      ∧ ((generate_report (fun _ => "") (fun s => Except.ok s) [] (Dict.mk []) "" ""
            "xml" none).1
            = Except.error ("Unsupported output format: " ++ "xml")
          ∧ (generate_report (fun _ => "") (fun s => Except.ok s) [] (Dict.mk []) "" ""
              "xml" none).2 = []) :=
  ⟨by decide,
   report_unsupported_format (fun _ => "") (fun s => Except.ok s) [] (Dict.mk []) "" ""
     "xml" none (by decide)⟩

/-- C10: the unified entry point generate_report, asked for the json or
csv format, raises the unsupported-format ValueError and writes no file;
JSON and CSV artifacts come only from the separate generate_json_export
(which always writes the serialized analysis) and generate_csv_export
(which writes whenever the finding list is non-empty), to which the
format dispatch never routes. -/
theorem report_json_csv_not_dispatched (renderHtml : AnalysisBundle → String)
    (convert : String → Except String String) (scan_results : List Dict) (scan_info : Dict)
    (now nowStamp fmt : String) (output_filename : Option String) (output_path : OutPath)
    (h : fmt = "json" ∨ fmt = "csv") :
    (generate_report renderHtml convert scan_results scan_info now nowStamp fmt
          output_filename).1
        = Except.error ("Unsupported output format: " ++ fmt)
      ∧ (generate_report renderHtml convert scan_results scan_info now nowStamp fmt
          output_filename).2 = []
      ∧ generate_json_export scan_results scan_info now output_path
          = [(output_path, generate_full_analysis scan_results scan_info now)]
      ∧ (scan_results ≠ [] → generate_csv_export scan_results ≠ none) := by
  have h1 : ¬ fmt = "html" := by rcases h with rfl | rfl <;> decide
  have h2 : ¬ fmt = "pdf" := by rcases h with rfl | rfl <;> decide
  refine ⟨?_, ?_, rfl, ?_⟩
  · simp [generate_report, h1, h2]
  · simp [generate_report, h1, h2]
  · intro hne
    simp [generate_csv_export, hne]

/-- C10 witness: both the json and the csv request raise the
unsupported-format error. -/
theorem report_json_csv_not_dispatched_witness :
    (("json" : String) = "json" ∨ ("json" : String) = "csv")
      ∧ (generate_report (fun _ => "") (fun s => Except.ok s) [] (Dict.mk []) "" ""
            "json" none).1
          = Except.error ("Unsupported output format: " ++ "json")
      ∧ (generate_report (fun _ => "") (fun s => Except.ok s) [] (Dict.mk []) "" ""
            "csv" none).1
          = Except.error ("Unsupported output format: " ++ "csv") :=
  ⟨Or.inl rfl,
   (report_json_csv_not_dispatched (fun _ => "") (fun s => Except.ok s) [] (Dict.mk []) ""
      "" "json" none (OutPath.mk "p" ".json") (Or.inl rfl)).1,
   (report_json_csv_not_dispatched (fun _ => "") (fun s => Except.ok s) [] (Dict.mk []) ""
      "" "csv" none (OutPath.mk "p" ".csv") (Or.inr rfl)).1⟩

lemma mem_foldl_append_keys (l : List Dict) :
    ∀ (acc : List String) (k : String),
      k ∈ l.foldl (fun acc r => acc ++ r.entries.map Prod.fst) acc
        ↔ k ∈ acc ∨ ∃ r ∈ l, k ∈ r.entries.map Prod.fst := by
  induction l with
  | nil =>
    intro acc k
    simp
  | cons r rest ih =>
    intro acc k
    rw [List.foldl_cons, ih]
    simp only [List.mem_append, List.mem_cons]
    constructor
    · rintro ((hk | hk) | ⟨r₁, hr₁, hk⟩)
      · exact Or.inl hk
      · exact Or.inr ⟨r, Or.inl rfl, hk⟩
      · exact Or.inr ⟨r₁, Or.inr hr₁, hk⟩
    · rintro (hk | ⟨r₁, hr₁ | hr₁, hk⟩)
      · exact Or.inl (Or.inl hk)
      · subst hr₁
        exact Or.inl (Or.inr hk)
      · exact Or.inr ⟨r₁, hr₁, hk⟩

/-- C6: CSV export on the empty finding list is a no-op writing no file;
otherwise the written grid is the header row followed by one row per
record, the header is the alphabetically sorted duplicate-free union of
the keys of all records, and a record missing one of those keys yields
an empty cell in that column. -/
theorem csv_export_spec (scan_results : List Dict) :
    (scan_results = [] → generate_csv_export scan_results = none)
      ∧ (scan_results ≠ [] →
          generate_csv_export scan_results
              = some (csv_keys scan_results
                  :: scan_results.map
                    (fun r => (csv_keys scan_results).map (fun k => r.getD k "")))
            ∧ (csv_keys scan_results).Sorted (fun a b => a ≤ b)
            ∧ (csv_keys scan_results).Nodup
            ∧ (∀ k : String, k ∈ csv_keys scan_results
                ↔ ∃ r ∈ scan_results, k ∈ r.entries.map Prod.fst)
            ∧ ∀ r ∈ scan_results, ∀ k : String, r.get k = none → r.getD k "" = "") := by
  constructor
  · intro h
    simp [generate_csv_export, h]
  · intro h
    refine ⟨by simp [generate_csv_export, h], sorted_sortLeBy id _,
      (perm_sortLeBy id _).nodup_iff.mpr (List.nodup_dedup _), ?_, ?_⟩
    · intro k
      rw [csv_keys, (perm_sortLeBy id _).mem_iff, List.mem_dedup,
        mem_foldl_append_keys scan_results [] k]
      simp
    · intro r _ k hk
      simp [Dict.getD, hk]

/-- C6 witness: the empty list writes nothing; a two-record list with
keys b and a, c yields the sorted header a, b, c with empty cells for
the missing keys. -/
theorem csv_export_spec_witness :
    generate_csv_export [] = none
      ∧ ([Dict.mk [("b", "1")], Dict.mk [("a", "2"), ("c", "x")]] : List Dict) ≠ []
      ∧ generate_csv_export [Dict.mk [("b", "1")], Dict.mk [("a", "2"), ("c", "x")]]
          = some [["a", "b", "c"], ["", "1", ""], ["2", "", "x"]] := by
  refine ⟨(csv_export_spec []).1 rfl, by decide, ?_⟩
  have h := ((csv_export_spec [Dict.mk [("b", "1")], Dict.mk [("a", "2"), ("c", "x")]]).2
    (by decide)).1
  rw [h]
  rfl
